import Mathlib

/-
Verification of the in-process telemetry aggregation engine of the
Sleep-Detection backend (api/services/services.py): the bounded event cache,
the severity classifier, the statistics aggregator, the windowed (hourly)
analytics and the dashboard composer.

Python dictionaries returned by the service layer are modelled as insertion
ordered association lists `List (String × Value)`; Python floats produced by
the statistics code (means and rates over exact inputs) are modelled as exact
rationals, with Python's `round` modelled as round-half-to-even on the exact
value; a raised exception is modelled as `none` in an `Option` result.
-/

namespace SleepDetection

/-- A value stored in one of the Python dictionaries the service layer
returns: an integer, a float (modelled as an exact rational), a string, or
the severity histogram (a string-to-count dictionary). -/
inductive Value where
  | int : Int → Value
  | rat : ℚ → Value
  | str : String → Value
  | histo : List (String × Nat) → Value
  deriving DecidableEq

/-- Round a rational to the nearest integer, ties to even, modelling Python's
built-in banker's rounding applied to the exact value. -/
def roundHalfEven (x : ℚ) : Int :=
  if x - ⌊x⌋ < 1/2 then ⌊x⌋
  else if 1/2 < x - ⌊x⌋ then ⌊x⌋ + 1
  else if ⌊x⌋ % 2 = 0 then ⌊x⌋ else ⌊x⌋ + 1

/-- Python's `round(x, ndigits)` on the exact rational value `x`. -/
def pyRound (ndigits : Nat) (x : ℚ) : ℚ :=
  (roundHalfEven (x * (10 : ℚ) ^ ndigits) : ℚ) / (10 : ℚ) ^ ndigits

/-- A processed detection event, the dictionary built by
`DetectionService.process_detection_event` and held in `events_cache`. -/
structure DetectionEvent where
  timestamp : String
  ear_value : ℚ
  is_drowsy : Bool
  duration_ms : Int
  severity : String
  deriving DecidableEq

/-- Embedding of `DetectionService._calculate_severity`. -/
def calculate_severity (ear_value : ℚ) (duration_ms : Int) : String :=
  if 0.25 < ear_value then "none"
  else if duration_ms < 2000 then "low"
  else if duration_ms < 5000 then "medium"
  else "high"

/-- Embedding of `DetectionService.max_cache_size`. -/
def max_cache_size : Nat := 1000

/-- Embedding of `DetectionService.process_detection_event` with the timestamp already
resolved (the caller supplied one, or the boundary defaulted it to the current
instant): builds the event, appends it to the cache and pops the oldest entry
when the cache exceeds `max_cache_size`.  Returns the event and the new cache. -/
def process_detection_event (cache : List DetectionEvent) (ear_value : ℚ)
    (is_drowsy : Bool) (duration_ms : Int) (timestamp : String) :
    DetectionEvent × List DetectionEvent :=
  let event : DetectionEvent :=
    { timestamp := timestamp, ear_value := ear_value, is_drowsy := is_drowsy,
      duration_ms := duration_ms,
      severity := calculate_severity ear_value duration_ms }
  let cache' := cache ++ [event]
  (event, if max_cache_size < cache'.length then cache'.drop 1 else cache')

/-- The arguments of one `process_detection_event` call. -/
structure EventInput where
  ear_value : ℚ
  is_drowsy : Bool
  duration_ms : Int
  timestamp : String
  deriving DecidableEq

/-- The event `process_detection_event` constructs from the given input. -/
def mkEvent (i : EventInput) : DetectionEvent :=
  { timestamp := i.timestamp, ear_value := i.ear_value, is_drowsy := i.is_drowsy,
    duration_ms := i.duration_ms,
    severity := calculate_severity i.ear_value i.duration_ms }

/-- The cache after one `process_detection_event` call. -/
def step (cache : List DetectionEvent) (i : EventInput) : List DetectionEvent :=
  (process_detection_event cache i.ear_value i.is_drowsy i.duration_ms i.timestamp).2

/-- The cache after a sequence of `process_detection_event` calls starting
from the empty cache. -/
def record_all (inputs : List EventInput) : List DetectionEvent :=
  inputs.foldl step []

/-- One iteration of the severity-histogram loop of
`DetectionService.get_statistics`:
`severity_counts[s] = severity_counts.get(s, 0) + 1` with Python dictionary
semantics (an existing key keeps its position, a new key is appended). -/
def bump (counts : List (String × Nat)) (s : String) : List (String × Nat) :=
  if counts.any (fun p => p.1 == s) then
    counts.map (fun p => if p.1 == s then (p.1, p.2 + 1) else p)
  else counts ++ [(s, 1)]

/-- The severity histogram built by `DetectionService.get_statistics`. -/
def severity_counts (events : List DetectionEvent) : List (String × Nat) :=
  events.foldl (fun c e => bump c e.severity) []

/-- Embedding of `DetectionService.get_statistics`. -/
def get_statistics (events : List DetectionEvent) : List (String × Value) :=
  if events.isEmpty then
    [("total_events", Value.int 0), ("drowsy_events", Value.int 0),
     ("average_ear", Value.rat 0), ("average_duration", Value.rat 0),
     ("severity_distribution", Value.histo [])]
  else
    let total : Nat := events.length
    let drowsy : Nat := events.countP (fun e => e.is_drowsy)
    let avg_ear : ℚ := ((events.map (fun e => e.ear_value)).sum) / total
    let avg_duration : ℚ := ((events.map (fun e => (e.duration_ms : ℚ))).sum) / total
    [("total_events", Value.int total), ("drowsy_events", Value.int drowsy),
     ("average_ear", Value.rat (pyRound 3 avg_ear)),
     ("average_duration_ms", Value.rat (pyRound 2 avg_duration)),
     ("severity_distribution", Value.histo (severity_counts events)),
     ("drowsiness_rate",
       if 0 < total then Value.rat (pyRound 2 ((drowsy : ℚ) / (total : ℚ) * 100))
       else Value.int 0)]

/-- Embedding of `DetectionService.get_recent_events`, i.e.
`events_cache[-limit:] if events_cache else []` for a non-negative `limit`.
Python slice semantics: for `limit ≥ 1` the slice `[-limit:]` is the tail of
at most `limit` elements, but for `limit = 0` the slice `[-0:]` is `[0:]`,
the whole list. -/
def get_recent_events (cache : List DetectionEvent) (limit : Nat) :
    List DetectionEvent :=
  if cache.isEmpty then []
  else if limit = 0 then cache
  else cache.drop (cache.length - limit)

/-- Embedding of `DetectionService.clear_cache`: returns the count removed and the emptied
cache. -/
def clear_cache (cache : List DetectionEvent) : Nat × List DetectionEvent :=
  (cache.length, [])

/-- Value of `timedelta(hours=1)` in the integer-seconds instant model. -/
def one_hour : Int := 3600

/-- Model of the external library call `datetime.fromisoformat` used by
`AnalyticsService.get_hourly_summary`.  Instants are modelled as integer
seconds; a timestamp string is valid exactly when it is a nonempty string of
decimal digits, denoting the instant it spells; on any other string the
library raises `ValueError`, modelled as `none`. -/
def fromisoformat (s : String) : Option Int :=
  if !s.isEmpty && s.data.all (fun c => c.isDigit) then
    some ((s.data.foldl (fun n c => n * 10 + (c.toNat - 48)) 0 : Nat) : Int)
  else none

/-- The list comprehension of `AnalyticsService.get_hourly_summary`: keep the
events whose parsed timestamp is strictly later than the cutoff; if any
timestamp in the cache fails to parse the comprehension raises (`none`). -/
def filterRecent (events : List DetectionEvent) (cutoff : Int) :
    Option (List DetectionEvent) :=
  match events with
  | [] => some []
  | e :: rest =>
    match fromisoformat e.timestamp with
    | none => none
    | some t =>
      match filterRecent rest cutoff with
      | none => none
      | some r => some (if cutoff < t then e :: r else r)

/-- Embedding of `AnalyticsService.get_hourly_summary`, with the reading of the clock
(`datetime.utcnow()`) passed in as `now`. -/
def get_hourly_summary (events : List DetectionEvent) (now : Int) :
    Option (List (String × Value)) :=
  match filterRecent events (now - one_hour) with
  | none => none
  | some recent =>
    if recent.isEmpty then
      some [("events_count", Value.int 0), ("period", Value.str "last_hour")]
    else
      let drowsy_count : Nat := recent.countP (fun e => e.is_drowsy)
      let avg_ear : ℚ := ((recent.map (fun e => e.ear_value)).sum) / recent.length
      some [("period", Value.str "last_hour"),
            ("events_count", Value.int recent.length),
            ("drowsy_count", Value.int drowsy_count),
            ("average_ear", Value.rat (pyRound 3 avg_ear)),
            ("alert_rate",
              if recent.isEmpty then Value.int 0
              else Value.rat
                (pyRound 2 ((drowsy_count : ℚ) / (recent.length : ℚ) * 100)))]

/-- The numeric reading of a dictionary value, for comparisons like
`drowsiness_rate > 50`; a non-numeric value would raise `TypeError` there,
modelled as `none`. -/
def Value.toNum : Value → Option ℚ
  | Value.int n => some (n : ℚ)
  | Value.rat q => some q
  | _ => none

/-- Embedding of `AnalyticsService._get_system_status` over a statistics dictionary;
`stats["total_events"]` raises `KeyError` when the key is absent, modelled as
`none`. -/
def get_system_status (stats : List (String × Value)) : Option String :=
  match stats.lookup "total_events" with
  | none => none
  | some t =>
    if t = Value.int 0 then some "idle"
    else
      match Value.toNum ((stats.lookup "drowsiness_rate").getD (Value.int 0)) with
      | none => none
      | some rate =>
        some (if 50 < rate then "critical"
              else if 25 < rate then "warning"
              else "normal")

/-- The dictionary returned by `AnalyticsService.get_dashboard_summary`. -/
structure DashboardSummary where
  overall : List (String × Value)
  last_hour : List (String × Value)
  status : String
  timestamp : String
  deriving DecidableEq

/-- Embedding of `AnalyticsService.get_dashboard_summary`, with the clock reading passed
as `now` (for the hourly window) and `now_iso` (for the reported timestamp). -/
def get_dashboard_summary (events : List DetectionEvent) (now : Int)
    (now_iso : String) : Option DashboardSummary :=
  match get_hourly_summary events now with
  | none => none
  | some hourly =>
    match get_system_status (get_statistics events) with
    | none => none
    | some st =>
      some { overall := get_statistics events, last_hour := hourly,
             status := st, timestamp := now_iso }

/-- The three-event scenario of the specification: `(0.3, false, 100)`,
`(0.1, true, 1500)`, `(0.1, true, 6000)`, with digit timestamps. -/
def cache3 : List DetectionEvent :=
  record_all [{ ear_value := 0.3, is_drowsy := false, duration_ms := 100, timestamp := "9000" },
              { ear_value := 0.1, is_drowsy := true, duration_ms := 1500, timestamp := "9100" },
              { ear_value := 0.1, is_drowsy := true, duration_ms := 6000, timestamp := "9200" }]

/-- A two-event cache reached by two `process_detection_event` calls. -/
def cache2 : List DetectionEvent :=
  record_all [{ ear_value := 0.3, is_drowsy := false, duration_ms := 100, timestamp := "9000" },
              { ear_value := 0.1, is_drowsy := true, duration_ms := 1500, timestamp := "9100" }]

/-- A one-event, all-drowsy cache. -/
def cacheD : List DetectionEvent :=
  record_all [{ ear_value := 0.1, is_drowsy := true, duration_ms := 1500, timestamp := "9100" }]

/-- A cache reached by one `process_detection_event` call whose (well-typed)
timestamp string is not a parseable instant. -/
def bad_cache : List DetectionEvent :=
  record_all [{ ear_value := 0.1, is_drowsy := true, duration_ms := 1500,
                timestamp := "not-a-timestamp" }]

/-- The event the code builds from `(0.3, false, 100, "9000")`. -/
def ev1 : DetectionEvent :=
  { timestamp := "9000", ear_value := 0.3, is_drowsy := false, duration_ms := 100,
    severity := "none" }

/-- The event the code builds from `(0.1, true, 1500, "9100")`. -/
def ev2 : DetectionEvent :=
  { timestamp := "9100", ear_value := 0.1, is_drowsy := true, duration_ms := 1500,
    severity := "low" }

/-- The event the code builds from `(0.1, true, 6000, "9200")`. -/
def ev3 : DetectionEvent :=
  { timestamp := "9200", ear_value := 0.1, is_drowsy := true, duration_ms := 6000,
    severity := "high" }

/-- The event the code builds from `(0.1, true, 1500, "not-a-timestamp")`. -/
def evBad : DetectionEvent :=
  { timestamp := "not-a-timestamp", ear_value := 0.1, is_drowsy := true,
    duration_ms := 1500, severity := "low" }

/-- The subsequence of the cache inside the trailing one-hour window: the
events whose parsed timestamp is strictly later than `now - one_hour` (the
value the comprehension in `get_hourly_summary` computes when every cached
timestamp parses). -/
def recentWindow (events : List DetectionEvent) (now : Int) : List DetectionEvent :=
  events.filter (fun e => decide (now - one_hour < (fromisoformat e.timestamp).getD 0))

lemma cache3_eq : cache3 = [ev1, ev2, ev3] := by
  norm_num [cache3, record_all, step, process_detection_event, calculate_severity,
    max_cache_size, ev1, ev2, ev3]

lemma cache2_eq : cache2 = [ev1, ev2] := by
  norm_num [cache2, record_all, step, process_detection_event, calculate_severity,
    max_cache_size, ev1, ev2]

lemma cacheD_eq : cacheD = [ev2] := by
  norm_num [cacheD, record_all, step, process_detection_event, calculate_severity,
    max_cache_size, ev2]

lemma bad_cache_eq : bad_cache = [evBad] := by
  norm_num [bad_cache, record_all, step, process_detection_event, calculate_severity,
    max_cache_size, evBad]

lemma drop_tail_append {α : Type} (l t : List α) (k n : Nat) (h : n + k ≤ l.length) :
    (l.drop k ++ t).drop ((l.drop k ++ t).length - n) =
      (l ++ t).drop ((l ++ t).length - n) := by
  rw [List.drop_append_eq_append_drop, List.drop_append_eq_append_drop, List.drop_drop]
  have h1 : k + ((l.drop k ++ t).length - n) = (l ++ t).length - n := by
    simp only [List.length_append, List.length_drop]
    omega
  have h2 : (l.drop k ++ t).length - n - (l.drop k).length =
      (l ++ t).length - n - l.length := by
    simp only [List.length_append, List.length_drop]
    omega
  rw [h1, h2]

lemma step_eq (cache : List DetectionEvent) (i : EventInput) :
    step cache i =
      if 1000 < (cache ++ [mkEvent i]).length then (cache ++ [mkEvent i]).drop 1
      else cache ++ [mkEvent i] := rfl

lemma foldl_step_eq (inputs : List EventInput) :
    ∀ cache : List DetectionEvent, cache.length ≤ 1000 →
      List.foldl step cache inputs =
        (cache ++ inputs.map mkEvent).drop ((cache ++ inputs.map mkEvent).length - 1000) := by
  induction inputs with
  | nil =>
    intro cache h
    simp [Nat.sub_eq_zero_of_le h]
  | cons i is ih =>
    intro cache h
    rw [List.foldl_cons]
    by_cases hlen : 1000 < (cache ++ [mkEvent i]).length
    · have hstep : step cache i = (cache ++ [mkEvent i]).drop 1 := by
        rw [step_eq, if_pos hlen]
      have hc : (cache ++ [mkEvent i]).length = cache.length + 1 := by simp
      have hlen' : ((cache ++ [mkEvent i]).drop 1).length ≤ 1000 := by
        rw [List.length_drop, hc]
        omega
      rw [hstep, ih _ hlen', drop_tail_append (cache ++ [mkEvent i]) (is.map mkEvent) 1 1000
        (by rw [hc]; omega)]
      simp [List.append_assoc]
    · have hstep : step cache i = cache ++ [mkEvent i] := by
        rw [step_eq, if_neg hlen]
      have hlen' : (cache ++ [mkEvent i]).length ≤ 1000 := by omega
      rw [hstep, ih _ hlen']
      simp [List.append_assoc]

/-- C1: starting from the empty cache, after any sequence of
`process_detection_event` calls the cache length is at most 1000 and the
cache holds exactly the most recent events, in arrival order, of the events
constructed from the inputs — i.e. all of them when at most 1000 were
recorded, and the last 1000 (the oldest evicted first, strict FIFO) when more
were recorded. -/
theorem cache_capacity_fifo (inputs : List EventInput) :
    (record_all inputs).length ≤ 1000 ∧
    record_all inputs = (inputs.map mkEvent).drop (inputs.length - 1000) := by
  have h := foldl_step_eq inputs [] (by simp)
  simp only [List.nil_append] at h
  constructor
  · rw [record_all, h]
    simp only [List.length_drop, List.length_map]
    omega
  · rw [record_all, h]
    simp

/-- C2: the severity classifier returns "none" whenever `ear_value > 0.25`;
for `ear_value ≤ 0.25` it returns "low" iff `duration_ms < 2000`, "medium"
iff `2000 ≤ duration_ms < 5000` and "high" iff `duration_ms ≥ 5000`; and it
never returns "critical". -/
theorem severity_policy (ear_value : ℚ) (duration_ms : Int) :
    (0.25 < ear_value → calculate_severity ear_value duration_ms = "none") ∧
    (ear_value ≤ 0.25 →
      ((calculate_severity ear_value duration_ms = "low" ↔ duration_ms < 2000) ∧
       (calculate_severity ear_value duration_ms = "medium" ↔
         2000 ≤ duration_ms ∧ duration_ms < 5000) ∧
       (calculate_severity ear_value duration_ms = "high" ↔ 5000 ≤ duration_ms))) ∧
    calculate_severity ear_value duration_ms ≠ "critical" := by
  refine ⟨fun h => by simp [calculate_severity, h], fun h => ?_, ?_⟩
  · have h' : ¬ (0.25 : ℚ) < ear_value := not_lt.mpr h
    simp only [calculate_severity, if_neg h']
    by_cases h2 : duration_ms < 2000 <;> by_cases h3 : duration_ms < 5000 <;>
      simp [h2, h3] <;> omega
  · unfold calculate_severity
    split_ifs <;> simp

/-- C3 as stated is false on the code: the empty-cache branch of
`get_statistics` names the duration field `average_duration`, not
`average_duration_ms`, and emits no `drowsiness_rate` key at all. -/
theorem stats_empty_shape_cex :
    (get_statistics []).lookup "average_duration_ms" = none ∧
    (get_statistics []).lookup "drowsiness_rate" = none ∧
    (get_statistics []).lookup "average_duration" = some (Value.rat 0) := by
  refine ⟨rfl, rfl, rfl⟩

/-- C3 amended: `get_statistics` on an empty cache returns exactly the record
`total_events=0, drowsy_events=0, average_ear=0.0, average_duration=0.0,
severity_distribution={}` — the duration field is named `average_duration`
(not `average_duration_ms`) and there is no `drowsiness_rate` key — and, being
a total function, raises no division-by-zero error. -/
theorem stats_empty_shape :
    get_statistics [] =
      [("total_events", Value.int 0), ("drowsy_events", Value.int 0),
       ("average_ear", Value.rat 0), ("average_duration", Value.rat 0),
       ("severity_distribution", Value.histo [])] := rfl

/-- Witness for C2 at concrete inputs. -/
theorem severity_policy_witness :
    calculate_severity 0.3 7000 = "none" ∧ calculate_severity 0.1 6000 = "high" :=
  ⟨(severity_policy 0.3 7000).1 (by norm_num),
   ((severity_policy 0.1 6000).2.1 (by norm_num)).2.2.mpr (by norm_num)⟩

lemma lookup_cons_str {β : Type} (k : String) (v : β) (es : List (String × β))
    (s : String) :
    ((k, v) :: es).lookup s = if s = k then some v else es.lookup s := by
  rw [List.lookup_cons]
  by_cases h : s = k
  · have hb : (s == k) = true := by simp [h]
    rw [hb, if_pos h]
  · have hb : (s == k) = false := by simp [h]
    rw [hb, if_neg h]

lemma lookup_map_bumpKey (counts : List (String × Nat)) (t s : String) :
    (counts.map (fun p => if p.1 == t then (p.1, p.2 + 1) else p)).lookup s =
      if s = t then (counts.lookup s).map (fun v => v + 1) else counts.lookup s := by
  induction counts with
  | nil =>
    simp only [List.map_nil, List.lookup_nil, Option.map_none]
    split <;> rfl
  | cons p rest ih =>
    obtain ⟨k, v⟩ := p
    simp only [List.map_cons]
    by_cases hkt : k = t
    · subst hkt
      rw [if_pos (show (k == k) = true by simp)]
      by_cases hsk : s = k
      · subst hsk
        simp [lookup_cons_str]
      · simp only [beq_iff_eq] at ih ⊢
        simp [lookup_cons_str, hsk, ih]
    · rw [if_neg (show ¬ ((k == t) = true) by simp [hkt])]
      by_cases hsk : s = k
      · simp only [beq_iff_eq] at ih ⊢
        simp [lookup_cons_str, hsk, hkt, ih]
      · simp only [beq_iff_eq] at ih ⊢
        simp [lookup_cons_str, hsk, ih]

lemma lookup_of_any (counts : List (String × Nat)) (t : String)
    (h : counts.any (fun p => p.1 == t) = true) : (counts.lookup t).isSome := by
  rw [List.lookup_isSome_iff]
  obtain ⟨p, hp, hpt⟩ := List.any_eq_true.mp h
  refine ⟨p, hp, ?_⟩
  have : p.1 = t := by simpa using hpt
  simp [this]

lemma lookup_of_not_any (counts : List (String × Nat)) (t : String)
    (h : counts.any (fun p => p.1 == t) = false) : counts.lookup t = none := by
  rw [List.lookup_eq_none_iff]
  intro p hp
  have h2 : ¬ p.1 = t := by simpa using List.any_eq_false.mp h p hp
  simp only [bne_iff_ne]
  exact fun hc => h2 hc.symm

lemma lookup_bump (counts : List (String × Nat)) (t s : String) :
    (bump counts t).lookup s =
      if s = t then some ((counts.lookup t).getD 0 + 1) else counts.lookup s := by
  unfold bump
  cases hany : counts.any (fun p => p.1 == t) with
  | true =>
    rw [if_pos rfl, lookup_map_bumpKey]
    by_cases hst : s = t
    · subst hst
      obtain ⟨v, hv⟩ := Option.isSome_iff_exists.mp (lookup_of_any counts s hany)
      simp [hv]
    · simp [hst]
  | false =>
    rw [if_neg Bool.false_ne_true, List.lookup_append]
    have hnone := lookup_of_not_any counts t hany
    by_cases hst : s = t
    · subst hst
      simp [hnone, lookup_cons_str]
    · cases hcs : counts.lookup s <;> simp [hst, hcs, lookup_cons_str]

lemma lookup_severity_counts_aux (events : List DetectionEvent) :
    ∀ (acc : List (String × Nat)) (s : String),
      ((events.foldl (fun c e => bump c e.severity) acc).lookup s) =
        match acc.lookup s with
        | some v => some (v + events.countP (fun e => e.severity == s))
        | none =>
          if events.countP (fun e => e.severity == s) = 0 then none
          else some (events.countP (fun e => e.severity == s)) := by
  induction events with
  | nil =>
    intro acc s
    cases h : acc.lookup s <;> simp [h]
  | cons e es ih =>
    intro acc s
    rw [List.foldl_cons, ih (bump acc e.severity) s, lookup_bump]
    by_cases hse : s = e.severity
    · subst hse
      rw [if_pos rfl]
      have hbe : (e.severity == e.severity) = true := by simp
      cases h : acc.lookup e.severity <;>
        simp [h, List.countP_cons, hbe] <;> omega
    · rw [if_neg hse]
      have hbe : (e.severity == s) = false := by
        simp only [beq_eq_false_iff_ne, ne_eq]
        exact fun hc => hse hc.symm
      cases h : acc.lookup s <;> simp [h, List.countP_cons, hbe]

lemma lookup_severity_counts (events : List DetectionEvent) (s : String) :
    (severity_counts events).lookup s =
      if events.countP (fun e => e.severity == s) = 0 then none
      else some (events.countP (fun e => e.severity == s)) := by
  have h := lookup_severity_counts_aux events [] s
  simpa [severity_counts] using h

lemma get_statistics_nonempty (events : List DetectionEvent) (h : events ≠ []) :
    get_statistics events =
      [("total_events", Value.int events.length),
       ("drowsy_events", Value.int (events.countP (fun e => e.is_drowsy))),
       ("average_ear",
         Value.rat (pyRound 3 ((events.map (fun e => e.ear_value)).sum / events.length))),
       ("average_duration_ms",
         Value.rat (pyRound 2 ((events.map (fun e => (e.duration_ms : ℚ))).sum / events.length))),
       ("severity_distribution", Value.histo (severity_counts events)),
       ("drowsiness_rate",
         Value.rat (pyRound 2 ((events.countP (fun e => e.is_drowsy) : ℚ) / events.length * 100)))] := by
  rw [get_statistics, if_neg (by simpa using h)]
  simp only [if_pos (List.length_pos.mpr h)]

/-- C4: on a non-empty cache, `get_statistics` reports the event count, the
drowsy-event count, the mean `ear_value` rounded to 3 decimal places, the mean
`duration_ms` rounded to 2 decimal places, the drowsiness rate
`100 * drowsy / total` rounded to 2 decimal places, and the exact severity
histogram, which contains exactly the observed labels with their exact
occurrence counts. -/
theorem stats_nonempty (events : List DetectionEvent) (h : events ≠ []) :
    (get_statistics events).lookup "total_events" = some (Value.int events.length) ∧
    (get_statistics events).lookup "drowsy_events" =
      some (Value.int (events.countP (fun e => e.is_drowsy))) ∧
    (get_statistics events).lookup "average_ear" =
      some (Value.rat (pyRound 3 ((events.map (fun e => e.ear_value)).sum / events.length))) ∧
    (get_statistics events).lookup "average_duration_ms" =
      some (Value.rat (pyRound 2 ((events.map (fun e => (e.duration_ms : ℚ))).sum / events.length))) ∧
    (get_statistics events).lookup "drowsiness_rate" =
      some (Value.rat (pyRound 2
        (100 * (events.countP (fun e => e.is_drowsy) : ℚ) / events.length))) ∧
    (get_statistics events).lookup "severity_distribution" =
      some (Value.histo (severity_counts events)) ∧
    (∀ s : String, (severity_counts events).lookup s =
      if events.countP (fun e => e.severity == s) = 0 then none
      else some (events.countP (fun e => e.severity == s))) := by
  rw [get_statistics_nonempty events h]
  have hrate : (events.countP (fun e => e.is_drowsy) : ℚ) / events.length * 100 =
      100 * (events.countP (fun e => e.is_drowsy) : ℚ) / events.length := by
    ring
  refine ⟨rfl, rfl, rfl, rfl, ?_, rfl, fun s => lookup_severity_counts events s⟩
  rw [← hrate]
  rfl

/-- Witness for C4: the three-event scenario `(0.3, false, 100)`,
`(0.1, true, 1500)`, `(0.1, true, 6000)` yields severities
`[none, low, high]`, `total_events = 3`, `drowsy_events = 2` and
`drowsiness_rate = 66.67`. -/
theorem stats_nonempty_witness :
    cache3.map (fun e => e.severity) = ["none", "low", "high"] ∧
    (get_statistics cache3).lookup "total_events" = some (Value.int 3) ∧
    (get_statistics cache3).lookup "drowsy_events" = some (Value.int 2) ∧
    (get_statistics cache3).lookup "drowsiness_rate" = some (Value.rat (66.67 : ℚ)) := by
  obtain ⟨h1, h2, -, -, h5, -, -⟩ := stats_nonempty cache3 (by rw [cache3_eq]; simp)
  refine ⟨by rw [cache3_eq]; rfl, ?_, ?_, ?_⟩
  · rw [h1, cache3_eq]
    rfl
  · rw [h2, cache3_eq]
    norm_num +decide [ev1, ev2, ev3]
  · rw [h5, cache3_eq]
    norm_num +decide [ev1, ev2, ev3, pyRound, roundHalfEven]

lemma filterRecent_some (events : List DetectionEvent) (cutoff : Int)
    (h : ∀ e ∈ events, (fromisoformat e.timestamp).isSome) :
    filterRecent events cutoff =
      some (events.filter (fun e => decide (cutoff < (fromisoformat e.timestamp).getD 0))) := by
  induction events with
  | nil => rfl
  | cons e es ih =>
    obtain ⟨t, ht⟩ := Option.isSome_iff_exists.mp (h e (List.mem_cons_self e es))
    rw [filterRecent, ht, ih (fun e' he' => h e' (List.mem_cons_of_mem e he'))]
    by_cases hcut : cutoff < t <;> simp [List.filter_cons, ht, hcut]

lemma filterRecent_eq_recentWindow (events : List DetectionEvent) (now : Int)
    (h : ∀ e ∈ events, (fromisoformat e.timestamp).isSome) :
    filterRecent events (now - one_hour) = some (recentWindow events now) :=
  filterRecent_some events (now - one_hour) h

/-- C5: when every cached timestamp parses, the hourly summary's window is
exactly the events whose timestamp is strictly later than `now - one_hour`
(an event exactly at the boundary is excluded), and when that window is empty
the summary is exactly the two-field record
`{events_count: 0, period: "last_hour"}`. -/
theorem hourly_window_strict (events : List DetectionEvent) (now : Int)
    (h : ∀ e ∈ events, (fromisoformat e.timestamp).isSome) :
    filterRecent events (now - one_hour) = some (recentWindow events now) ∧
    (∀ e ∈ events, fromisoformat e.timestamp = some (now - one_hour) →
      e ∉ recentWindow events now) ∧
    (recentWindow events now = [] →
      get_hourly_summary events now =
        some [("events_count", Value.int 0), ("period", Value.str "last_hour")]) := by
  refine ⟨filterRecent_eq_recentWindow events now h, ?_, ?_⟩
  · intro e _ hts hmem
    have hp := (List.mem_filter.mp hmem).2
    rw [hts] at hp
    simp at hp
  · intro hempty
    rw [get_hourly_summary, filterRecent_eq_recentWindow events now h, hempty]
    rfl

/-- Witness for C5: with `now` two hours after the three recorded events, the
window is empty and the summary is the bare two-field record. -/
theorem hourly_window_strict_witness :
    get_hourly_summary cache3 20000 =
      some [("events_count", Value.int 0), ("period", Value.str "last_hour")] := by
  have hall : ∀ e ∈ cache3, (fromisoformat e.timestamp).isSome := by
    rw [cache3_eq]
    intro e he
    simp only [List.mem_cons, List.not_mem_nil, or_false] at he
    rcases he with rfl | rfl | rfl <;> rfl
  refine (hourly_window_strict cache3 20000 hall).2.2 ?_
  rw [recentWindow, cache3_eq]
  rfl

lemma get_hourly_summary_nonempty (events : List DetectionEvent) (now : Int)
    (h : ∀ e ∈ events, (fromisoformat e.timestamp).isSome)
    (hne : recentWindow events now ≠ []) :
    get_hourly_summary events now =
      some [("period", Value.str "last_hour"),
        ("events_count", Value.int (recentWindow events now).length),
        ("drowsy_count", Value.int ((recentWindow events now).countP (fun e => e.is_drowsy))),
        ("average_ear", Value.rat (pyRound 3
          (((recentWindow events now).map (fun e => e.ear_value)).sum /
            (recentWindow events now).length))),
        ("alert_rate", Value.rat (pyRound 2
          (((recentWindow events now).countP (fun e => e.is_drowsy) : ℚ) /
            (recentWindow events now).length * 100)))] := by
  have hie : ¬ ((recentWindow events now).isEmpty = true) := by
    simpa using hne
  rw [get_hourly_summary, filterRecent_eq_recentWindow events now h]
  simp only [if_neg hie]

/-- C6 as stated is false on the code: for a non-empty window the hourly
summary carries only `period`, `events_count`, `drowsy_count`, `average_ear`
and `alert_rate` — it omits the mean duration, the drowsiness rate and the
severity histogram that the full statistics snapshot of 4.3 carries. -/
theorem hourly_fields_cex :
    (get_hourly_summary cache3 10000).map (fun d => d.lookup "severity_distribution") =
      some none ∧
    (get_hourly_summary cache3 10000).map (fun d => d.lookup "average_duration_ms") =
      some none ∧
    (get_hourly_summary cache3 10000).map (fun d => d.lookup "drowsiness_rate") =
      some none ∧
    (get_hourly_summary cache3 10000).map (fun d => d.lookup "events_count") =
      some (some (Value.int 3)) := by
  rw [cache3_eq]
  refine ⟨?_, ?_, ?_, ?_⟩ <;>
    norm_num +decide [get_hourly_summary, filterRecent, fromisoformat, one_hour,
      ev1, ev2, ev3, pyRound, roundHalfEven, lookup_cons_str]

/-- C6 amended: for a non-empty window the hourly summary contains the window
size, the drowsy count and the mean `ear_value` rounded to 3 decimal places
computed over the window, plus `alert_rate`, the percentage of window events
with `is_drowsy` true, with the same formula and rounding as
`drowsiness_rate`; it omits the mean duration, the drowsiness rate and the
severity histogram of the full statistics snapshot. -/
theorem hourly_nonempty_fields (events : List DetectionEvent) (now : Int)
    (h : ∀ e ∈ events, (fromisoformat e.timestamp).isSome)
    (hne : recentWindow events now ≠ []) :
    get_hourly_summary events now =
      some [("period", Value.str "last_hour"),
        ("events_count", Value.int (recentWindow events now).length),
        ("drowsy_count", Value.int ((recentWindow events now).countP (fun e => e.is_drowsy))),
        ("average_ear", Value.rat (pyRound 3
          (((recentWindow events now).map (fun e => e.ear_value)).sum /
            (recentWindow events now).length))),
        ("alert_rate", Value.rat (pyRound 2
          (100 * ((recentWindow events now).countP (fun e => e.is_drowsy) : ℚ) /
            (recentWindow events now).length)))] ∧
    (get_hourly_summary events now).map (fun d => d.lookup "average_duration_ms") =
      some none ∧
    (get_hourly_summary events now).map (fun d => d.lookup "drowsiness_rate") =
      some none ∧
    (get_hourly_summary events now).map (fun d => d.lookup "severity_distribution") =
      some none := by
  have heq := get_hourly_summary_nonempty events now h hne
  have hrate : ((recentWindow events now).countP (fun e => e.is_drowsy) : ℚ) /
      (recentWindow events now).length * 100 =
      100 * ((recentWindow events now).countP (fun e => e.is_drowsy) : ℚ) /
        (recentWindow events now).length := by
    ring
  refine ⟨by rw [heq, hrate], ?_, ?_, ?_⟩ <;> rw [heq] <;> rfl

/-- Witness for C6 amended at the three-event scenario, one hour window
containing all three events. -/
theorem hourly_nonempty_fields_witness :
    get_hourly_summary cache3 10000 =
      some [("period", Value.str "last_hour"), ("events_count", Value.int 3),
        ("drowsy_count", Value.int 2),
        ("average_ear", Value.rat (0.167 : ℚ)),
        ("alert_rate", Value.rat (66.67 : ℚ))] := by
  have hall : ∀ e ∈ cache3, (fromisoformat e.timestamp).isSome := by
    rw [cache3_eq]
    intro e he
    simp only [List.mem_cons, List.not_mem_nil, or_false] at he
    rcases he with rfl | rfl | rfl <;> rfl
  have hrw : recentWindow cache3 10000 = [ev1, ev2, ev3] := by
    rw [recentWindow, cache3_eq]
    rfl
  have hne : recentWindow cache3 10000 ≠ [] := by
    rw [hrw]
    simp
  have h := (hourly_nonempty_fields cache3 10000 hall hne).1
  rw [h, hrw]
  norm_num +decide [ev1, ev2, ev3, pyRound, roundHalfEven]

lemma stats_lookup_total (events : List DetectionEvent) (h : events ≠ []) :
    (get_statistics events).lookup "total_events" = some (Value.int events.length) := by
  rw [get_statistics_nonempty events h]
  rfl

lemma stats_lookup_rate (events : List DetectionEvent) (h : events ≠ []) :
    (get_statistics events).lookup "drowsiness_rate" =
      some (Value.rat (pyRound 2
        ((events.countP (fun e => e.is_drowsy) : ℚ) / events.length * 100))) := by
  rw [get_statistics_nonempty events h]
  rfl

lemma status_of_singleton_drowsy :
    get_system_status (get_statistics [ev2]) = some "critical" := by
  rw [get_system_status, stats_lookup_total [ev2] (by simp),
    stats_lookup_rate [ev2] (by simp)]
  norm_num +decide [ev2, Value.toNum, pyRound, roundHalfEven]

/-- C7: the dashboard status derived from the full-cache statistics is
"idle" on an empty cache; otherwise "critical" when the drowsiness rate
exceeds 50, "warning" when it is in (25, 50], and "normal" otherwise; the
status judgment can produce "critical" while the per-event severity
classifier never does. -/
theorem system_status_policy (events : List DetectionEvent) :
    (events = [] → get_system_status (get_statistics events) = some "idle") ∧
    (events ≠ [] →
      get_system_status (get_statistics events) =
        some (if 50 < pyRound 2
            (100 * (events.countP (fun e => e.is_drowsy) : ℚ) / events.length)
          then "critical"
          else if 25 < pyRound 2
            (100 * (events.countP (fun e => e.is_drowsy) : ℚ) / events.length)
          then "warning"
          else "normal")) ∧
    (∃ evs : List DetectionEvent,
      get_system_status (get_statistics evs) = some "critical") ∧
    (∀ (q : ℚ) (d : Int), calculate_severity q d ≠ "critical") := by
  refine ⟨?_, ?_, ⟨[ev2], status_of_singleton_drowsy⟩, ?_⟩
  · rintro rfl
    rfl
  · intro h
    have hlen0 : events.length ≠ 0 := fun hc => h (List.length_eq_zero.mp hc)
    have hlen : ¬ (Value.int events.length = Value.int 0) := by
      intro hc
      injection hc with hc'
      exact hlen0 (by exact_mod_cast hc')
    rw [get_system_status, stats_lookup_total events h, stats_lookup_rate events h]
    simp only [Option.getD_some, Value.toNum, if_neg hlen]
    rw [show (events.countP (fun e => e.is_drowsy) : ℚ) / events.length * 100 =
        100 * (events.countP (fun e => e.is_drowsy) : ℚ) / events.length by ring]
  · intro q d
    unfold calculate_severity
    split_ifs <;> simp

/-- Witness for C7: "idle" on the empty cache and "critical" on an
all-drowsy one-event cache (drowsiness rate 100). -/
theorem system_status_policy_witness :
    get_system_status (get_statistics []) = some "idle" ∧
    get_system_status (get_statistics cacheD) = some "critical" := by
  constructor
  · exact (system_status_policy []).1 rfl
  · have h := (system_status_policy cacheD).2.1 (by rw [cacheD_eq]; simp)
    rw [h, cacheD_eq]
    norm_num +decide [ev2, pyRound, roundHalfEven]

/-- C8 as stated is false on the code: with `limit = 0` the Python slice
`events_cache[-0:]` is `events_cache[0:]`, the whole cache, not the empty
sequence. -/
theorem recent_limit_zero_cex :
    get_recent_events cache2 0 = cache2 ∧ cache2 ≠ [] ∧
    (get_recent_events cache2 0).length = 2 := by
  refine ⟨?_, ?_, ?_⟩
  · rw [cache2_eq]
    rfl
  · rw [cache2_eq]
    simp
  · rw [cache2_eq]
    rfl

/-- C8 amended: for every cache state and every `limit ≥ 1`,
`get_recent_events` returns the tail of the cache in arrival order with at
most `limit` entries, all of them when the cache has no more than `limit`
entries; for `limit = 0` it returns the entire cache (not the empty
sequence). -/
theorem recent_events_tail (cache : List DetectionEvent) (limit : Nat)
    (h : 0 < limit) :
    get_recent_events cache limit = cache.drop (cache.length - limit) ∧
    (get_recent_events cache limit).length ≤ limit ∧
    (cache.length ≤ limit → get_recent_events cache limit = cache) ∧
    get_recent_events cache 0 = cache := by
  have hlim : limit ≠ 0 := Nat.pos_iff_ne_zero.mp h
  by_cases hc : cache.isEmpty = true
  · have hnil : cache = [] := List.isEmpty_iff.mp hc
    subst hnil
    exact ⟨by simp [get_recent_events], by simp [get_recent_events],
      fun _ => rfl, rfl⟩
  · have hdef : get_recent_events cache limit = cache.drop (cache.length - limit) := by
      rw [get_recent_events, if_neg hc, if_neg hlim]
    refine ⟨hdef, ?_, ?_, ?_⟩
    · rw [hdef, List.length_drop]
      omega
    · intro hle
      rw [hdef, Nat.sub_eq_zero_of_le hle, List.drop_zero]
    · rw [get_recent_events, if_neg hc, if_pos rfl]

/-- Witness for C8 amended: on the two-event cache with `limit = 1`, the tail
`[ev2]` is returned. -/
theorem recent_events_tail_witness :
    get_recent_events cache2 1 = [ev2] ∧ (get_recent_events cache2 1).length ≤ 1 := by
  obtain ⟨h1, h2, -, -⟩ := recent_events_tail cache2 1 (by norm_num)
  refine ⟨?_, h2⟩
  rw [h1, cache2_eq]
  rfl

lemma status_isSome (events : List DetectionEvent) :
    (get_system_status (get_statistics events)).isSome := by
  by_cases h : events = []
  · subst h
    rfl
  · rw [get_system_status, stats_lookup_total events h, stats_lookup_rate events h]
    simp only [Option.getD_some, Value.toNum]
    split <;> simp

/-- C10 as stated is false on the code: `process_detection_event` accepts any
well-typed timestamp string, and on a cache holding an unparseable timestamp
the hourly summary — and hence the dashboard summary — raises the
`ValueError` of `datetime.fromisoformat` (modelled as `none`) instead of
succeeding. -/
theorem hourly_raise_cex :
    bad_cache = [evBad] ∧
    get_hourly_summary bad_cache 10000 = none ∧
    get_dashboard_summary bad_cache 10000 "t" = none := by
  refine ⟨bad_cache_eq, ?_, ?_⟩
  · rw [bad_cache_eq]
    rfl
  · rw [bad_cache_eq]
    rfl

/-- C10 amended: `process_detection_event`, `get_recent_events`,
`clear_cache` and `get_statistics` are total; the hourly summary and the
dashboard summary succeed on every cache state whose timestamps all parse as
valid instants. -/
theorem core_total_on_valid_timestamps (events : List DetectionEvent) (now : Int)
    (now_iso : String) (h : ∀ e ∈ events, (fromisoformat e.timestamp).isSome) :
    (get_hourly_summary events now).isSome ∧
    (get_dashboard_summary events now now_iso).isSome := by
  have hh : (get_hourly_summary events now).isSome := by
    rw [get_hourly_summary, filterRecent_eq_recentWindow events now h]
    by_cases hr : (recentWindow events now).isEmpty = true <;> simp [hr]
  refine ⟨hh, ?_⟩
  obtain ⟨hd, hhd⟩ := Option.isSome_iff_exists.mp hh
  obtain ⟨st, hst⟩ := Option.isSome_iff_exists.mp (status_isSome events)
  rw [get_dashboard_summary, hhd, hst]
  rfl

/-- Witness for C10 amended at the three-event cache with parseable
timestamps. -/
theorem core_total_witness :
    (get_hourly_summary cache3 10000).isSome ∧
    (get_dashboard_summary cache3 10000 "10000").isSome := by
  apply core_total_on_valid_timestamps
  rw [cache3_eq]
  intro e he
  simp only [List.mem_cons, List.not_mem_nil, or_false] at he
  rcases he with rfl | rfl | rfl <;> rfl

/-- C9: `clear_cache` returns the number of events in the cache before the
call and leaves the cache empty; calling it again on the emptied cache
returns 0 and the cache remains empty. -/
theorem clear_cache_spec (cache : List DetectionEvent) :
    (clear_cache cache).1 = cache.length ∧
    (clear_cache cache).2 = [] ∧
    clear_cache (clear_cache cache).2 = (0, []) :=
  ⟨rfl, rfl, rfl⟩

end SleepDetection
